import Mathlib

/-!
Verification of the YouTube trending-video scraper
(`src/Youtube_Scraper/Scraper by category.py`).

The Python script is embedded shallowly: dictionaries with optional keys
become structures with `Option` fields, `dict.get(k, d)` becomes
`Option.getD`, a direct subscript `d[k]` that can raise `KeyError` becomes
a `match` whose `none` branch returns an error, `sys.exit(c)` becomes a
distinguished `exit` result carrying the numeric status, and the network
layer is a parameter `fetch` mapping a page-token query fragment to an
HTTP outcome.  The current date (`time.strftime`) is threaded as an
explicit `today : String` parameter.
-/

namespace Scraper

/-- A Python scalar as it flows through `prepare_feature`: the script feeds
it strings, integers and booleans.  `str()` of each is modelled by
`Value.toStr`. -/
inductive Value where
  | s (v : String)
  | i (v : Int)
  | b (v : Bool)
  deriving DecidableEq, Repr

/-- Python `str()` on the scalars the script uses: strings unchanged,
integers in decimal, booleans as `True` / `False`. -/
def Value.toStr : Value → String
  | .s v => v
  | .i v => toString v
  | .b v => if v then "True" else "False"

/-- `SNIPPET_FEATURES` order is realized below in `extract_fields`;
the names are kept for the header. -/
def SNIPPET_FEATURES : List String :=
  ["title", "publishedAt", "channelId", "channelTitle", "categoryId"]

/-- The characters the script strips from every field
(`UNSAFE_CHARACTERS = ['\n', '"']`). -/
def UNSAFE_CHARACTERS : List Char := ['\n', '"']

/-- `HEADER`: the fixed 17-column schema. -/
def HEADER : List String :=
  ["video_id"] ++ SNIPPET_FEATURES ++
  ["trending_date", "tags", "view_count", "likes", "dislikes",
   "comment_count", "thumbnail_link", "comments_disabled",
   "ratings_disabled", "description", "duration"]

/-- The fixed category table (insertion order of the Python dict). -/
def CATEGORIES : List (String × String) :=
  [("1", "Film & Animation"), ("2", "Autos & Vehicles"), ("10", "Music"),
   ("15", "Pets & Animals"), ("17", "Sports"), ("20", "Gaming"),
   ("22", "People & Blogs"), ("23", "Comedy"), ("24", "Entertainment"),
   ("25", "News & Politics"), ("26", "Howto & Style"), ("27", "Education"),
   ("28", "Science & Technology")]

/-- Python `s.replace(ch, "")`: delete every occurrence of the character. -/
def removeChar (ch : Char) (s : String) : String :=
  String.mk (s.data.filter (fun c => c != ch))

/-- `prepare_feature`: `str()` the value, strip each unsafe character in
turn, and wrap the result in double quotes. -/
def prepare_feature (feature : Value) : String :=
  let cleaned := UNSAFE_CHARACTERS.foldl (fun acc ch => removeChar ch acc) feature.toStr
  "\"" ++ cleaned ++ "\""

/-- `get_tags`: an empty list is replaced by the sentinel `["[none]"]`,
then the tags are joined with `|` and sanitized. -/
def get_tags (tags_list : List String) : String :=
  let tl := if tags_list.isEmpty then ["[none]"] else tags_list
  prepare_feature (.s (String.intercalate "|" tl))

/-- `snippet.thumbnails.default` sub-structure (`url` optional). -/
structure ThumbnailInfo where
  url : Option String := none
  deriving DecidableEq, Repr

/-- `snippet.thumbnails` sub-structure (`default` optional). -/
structure Thumbnails where
  defaultThumb : Option ThumbnailInfo := none
  deriving DecidableEq, Repr

/-- The `snippet` sub-structure of an API item; every key is optional,
matching the `.get` accesses in the script. -/
structure Snippet where
  title : Option String := none
  publishedAt : Option String := none
  channelId : Option String := none
  channelTitle : Option String := none
  categoryId : Option String := none
  description : Option String := none
  thumbnails : Option Thumbnails := none
  tags : Option (List String) := none
  deriving DecidableEq, Repr

/-- The `statistics` sub-structure; the counts arrive as opaque scalars. -/
structure Statistics where
  viewCount : Option Value := none
  likeCount : Option Value := none
  dislikeCount : Option Value := none
  commentCount : Option Value := none
  deriving DecidableEq, Repr

/-- The `contentDetails` sub-structure. -/
structure ContentDetails where
  duration : Option String := none
  deriving DecidableEq, Repr

/-- One raw API item.  `id` and `snippet` are `Option` because the dict may
lack them; the script reads them with raising subscripts `video['id']`,
`video['snippet']`. -/
structure Item where
  id : Option String := none
  snippet : Option Snippet := none
  contentDetails : Option ContentDetails := none
  statistics : Option Statistics := none
  deriving DecidableEq, Repr

/-- The body of the `get_videos` loop for one item.
`.ok none` models `continue` (no statistics), `.error ()` models the
`KeyError` raised by `video['id']` or `video['snippet']`, and
`.ok (some fields)` is the 17-entry row before the `",".join`. -/
def extract_fields (today : String) (video : Item) : Except Unit (Option (List String)) :=
  match video.statistics with
  | none => .ok none
  | some statistics =>
    match video.id with
    | none => .error ()
    | some vid =>
      let video_id := prepare_feature (.s vid)
      let duration := ((video.contentDetails.getD {}).duration).getD ""
      match video.snippet with
      | none => .error ()
      | some snippet =>
        let features :=
          [snippet.title, snippet.publishedAt, snippet.channelId,
           snippet.channelTitle, snippet.categoryId].map
            (fun f => prepare_feature (.s (f.getD "")))
        let description := snippet.description.getD ""
        let thumbnail_link :=
          (((snippet.thumbnails.getD {}).defaultThumb.getD {}).url).getD ""
        let trending_date := today
        let tags := get_tags (snippet.tags.getD [])
        let view_count := statistics.viewCount.getD (.i 0)
        let (likes, dislikes, ratings_disabled) :=
          match statistics.likeCount with
          | some lc => (lc, statistics.dislikeCount.getD (.i 0), false)
          | none => (.i 0, .i 0, true)
        let (comment_count, comments_disabled) :=
          match statistics.commentCount with
          | some cc => (cc, false)
          | none => (.i 0, true)
        .ok (some ([video_id] ++ features ++
          ([.s trending_date, .s tags, view_count, likes, dislikes,
            comment_count, .s thumbnail_link, .b comments_disabled,
            .b ratings_disabled, .s description, .s duration] : List Value).map
            prepare_feature))

/-- `get_videos`: extract each item in order into a comma-joined line,
skipping items without statistics; a `KeyError` aborts the whole call
(as the uncaught Python exception would). -/
def get_videos (today : String) : List Item → Except Unit (List String)
  | [] => .ok []
  | v :: rest =>
    match extract_fields today v with
    | .error e => .error e
    | .ok none => get_videos today rest
    | .ok (some fields) =>
      match get_videos today rest with
      | .error e => .error e
      | .ok ls => .ok (String.intercalate "," fields :: ls)

/-- One page of the parsed JSON response: `nextPageToken` and `items` are
both read with `.get` and a default. -/
structure Response where
  nextPageToken : Option String := none
  items : Option (List Item) := none
  deriving Repr

/-- What the HTTP layer hands `api_request`: a status code with a parsed
body, a timeout, or a transport-level error. -/
inductive HttpOutcome where
  | status (code : Nat) (body : Response)
  | timeout
  | transportError

/-- Result of `api_request`: `exit c` models `sys.exit` with process
status `c` (the bare `sys.exit()` on 429 exits with status 0), `failed`
models `return None`, `ok` the parsed page. -/
inductive ApiResult where
  | exit (code : Nat)
  | failed
  | ok (page : Response)

/-- `api_request` after the HTTP call: 429 → bare `sys.exit()` (status 0),
403 → `sys.exit(1)`, other non-200 → `None`, timeout / transport error →
`None`, 200 → the parsed body. -/
def api_request (o : HttpOutcome) : ApiResult :=
  match o with
  | .timeout => .failed
  | .transportError => .failed
  | .status code body =>
    if code = 429 then .exit 0
    else if code = 403 then .exit 1
    else if code ≠ 200 then .failed
    else .ok body

/-- A condition that ends the run abnormally: a propagated `sys.exit`
(with its status) or an uncaught `KeyError` from `get_videos`.  `fuelOut`
is an artifact of bounding the `while` loop and never occurs at the fuel
the theorems use. -/
inductive Fatal where
  | exit (code : Nat)
  | keyError
  | fuelOut
  deriving DecidableEq, Repr

/-- The `while next_page_token is not None` loop of `get_pages`:
`tok` is the current page-token query fragment (initially `"&"`), `acc`
the accumulated rows. -/
def get_pages_loop (today : String) (fetch : String → HttpOutcome) :
    Nat → Option String → List String → Except Fatal (List String)
  | _, none, acc => .ok acc
  | 0, some _, _ => .error .fuelOut
  | fuel + 1, some tok, acc =>
    match api_request (fetch tok) with
    | .exit c => .error (.exit c)
    | .failed => .ok acc
    | .ok page =>
      let next := page.nextPageToken.map (fun t => "pageToken=" ++ t ++ "&")
      match get_videos today (page.items.getD []) with
      | .error _ => .error .keyError
      | .ok rows => get_pages_loop today fetch fuel next (acc ++ rows)

/-- `get_pages`: iterate the fetch loop from the initial token `'&'` with
an empty accumulator. -/
def get_pages (today : String) (fetch : String → HttpOutcome) (fuel : Nat) :
    Except Fatal (List String) :=
  get_pages_loop today fetch fuel (some "&") []

/-- The header line `",".join(HEADER)`. -/
def headerRow : String := String.intercalate "," HEADER

/-- One call to `write_to_file`, recorded instead of performed: the
country, the optional `(category_id, category_name)`, and the lines. -/
structure FileWrite where
  country : String
  category : Option (String × String)
  rows : List String
  deriving DecidableEq, Repr

/-- The inner per-category loop of `get_data`: header is prepended, and
the file is written only when more than the header was produced. -/
def get_data_cats (today : String)
    (fetchAll : String → Option String → String → HttpOutcome)
    (fuel : Nat) (country : String) :
    List (String × String) → Except Fatal (List FileWrite)
  | [] => .ok []
  | (cid, cname) :: rest =>
    match get_pages today (fetchAll country (some cid)) fuel with
    | .error e => .error e
    | .ok vids =>
      let country_data := headerRow :: vids
      match get_data_cats today fetchAll fuel country rest with
      | .error e => .error e
      | .ok ws =>
        if country_data.length > 1 then
          .ok (⟨country, some (cid, cname), country_data⟩ :: ws)
        else
          .ok ws

/-- `get_data`: for each country either loop over all categories
(writing only non-empty results) or run one unscoped pagination and write
unconditionally. -/
def get_data (today : String)
    (fetchAll : String → Option String → String → HttpOutcome)
    (fuel : Nat) : List String → Bool → Except Fatal (List FileWrite)
  | [], _ => .ok []
  | c :: rest, byCat =>
    let this : Except Fatal (List FileWrite) :=
      if byCat then
        get_data_cats today fetchAll fuel c CATEGORIES
      else
        match get_pages today (fetchAll c none) fuel with
        | .error e => .error e
        | .ok vids => .ok [⟨c, none, headerRow :: vids⟩]
    match this with
    | .error e => .error e
    | .ok ws =>
      match get_data today fetchAll fuel rest byCat with
      | .error e => .error e
      | .ok ws2 => .ok (ws ++ ws2)

/-- The two filters of the sanitizing loop, at the character-list level:
first every newline is deleted, then every double quote. -/
def cleanList (l : List Char) : List Char :=
  (l.filter (fun c => c != '\n')).filter (fun c => c != '"')

/-- A fetch outcome the script recovers from locally (`api_request`
returns `None`): a timeout, a transport error, or a status that is
neither 200 nor one of the two fatal codes 429 / 403. -/
def fetchLocalFailure (o : HttpOutcome) : Prop :=
  o = .timeout ∨ o = .transportError ∨
    ∃ c r, o = .status c r ∧ c ≠ 200 ∧ c ≠ 429 ∧ c ≠ 403

/-- A minimal valid item: statistics present, id and snippet present,
everything else missing. -/
def itemW : Item := { id := some "v1", snippet := some {}, statistics := some {} }

/-- The row `get_videos` builds from `itemW` on date `2020-01-01`. -/
def rowW : String :=
  "\"v1\",\"\",\"\",\"\",\"\",\"\",\"2020-01-01\",\"[none]\",\"0\",\"0\",\"0\",\"0\",\"\",\"True\",\"True\",\"\",\"\""

/-- Page 1 of a simulated 3-page API: token T1, no items. -/
def pg1 : Response := { nextPageToken := some "T1", items := some [] }

/-- Page 2 of the simulated API: token T2, one valid item. -/
def pg2 : Response := { nextPageToken := some "T2", items := some [itemW] }

/-- Page 3 of the simulated API: no token, no items. -/
def pg3 : Response := { nextPageToken := none, items := some [] }

/-- The simulated 3-page fetch sequence `T1 → T2 → none`. -/
def fetchW : String → HttpOutcome := fun tok =>
  if tok = "&" then .status 200 pg1
  else if tok = "pageToken=T1&" then .status 200 pg2
  else if tok = "pageToken=T2&" then .status 200 pg3
  else .timeout

/-- A simulated API for country `AA`: one good page, then a 500 on every
later page; every other country gets a 500 immediately. -/
def fetchAllW : String → Option String → String → HttpOutcome := fun c _ tok =>
  if c = "AA" then
    (if tok = "&" then .status 200 { nextPageToken := some "T1", items := some [itemW] }
     else .status 500 {})
  else .status 500 {}

/-- A simulated API that answers every request with a 500. -/
def fetchFail : String → Option String → String → HttpOutcome :=
  fun _ _ _ => .status 500 {}

/-! ## Helper lemmas -/

/-- The sanitized form of a value, at the character level: the cleaned
text between two double quotes. -/
theorem prepare_feature_data (v : Value) :
    (prepare_feature v).data = '"' :: cleanList v.toStr.data ++ ['"'] := rfl

/-- Every character surviving the two filters is neither a newline nor a
double quote. -/
theorem cleanList_clean {c : Char} {l : List Char} (h : c ∈ cleanList l) :
    c ≠ '\n' ∧ c ≠ '"' := by
  unfold cleanList at h
  simp only [List.mem_filter, bne_iff_ne, ne_eq, decide_not] at h
  simp_all

/-- Re-cleaning a quoted clean text strips exactly the two wrapping
quotes. -/
theorem cleanList_idem (l : List Char) :
    cleanList ('"' :: cleanList l ++ ['"']) = cleanList l := by
  unfold cleanList
  simp [List.filter_append, List.filter_filter]
  apply List.filter_congr
  intro a _
  cases h1 : a != '"' <;> cases h2 : a != '\n' <;> simp [h1, h2]

/-- Strings with equal character lists are equal. -/
theorem str_ext {a b : String} (h : a.data = b.data) : a = b :=
  congrArg String.mk h

/-- Sanitizing an already-sanitized value changes nothing: the wrapping
quotes are stripped, the interior is already clean, and the quotes are
put back. -/
theorem prepare_prepare (x : Value) :
    prepare_feature (.s (prepare_feature x)) = prepare_feature x := by
  apply str_ext
  rw [prepare_feature_data, prepare_feature_data]
  show '"' :: cleanList ('"' :: cleanList x.toStr.data ++ ['"']) ++ ['"'] = _
  rw [cleanList_idem]

/-- A fetch-local failure makes `api_request` return `None`. -/
theorem api_request_fetchLocal {o : HttpOutcome} (h : fetchLocalFailure o) :
    api_request o = .failed := by
  rcases h with h | h | ⟨c, r, h, h200, h429, h403⟩ <;> subst h
  · rfl
  · rfl
  · simp [api_request, h200, h429, h403]

/-- One successful iteration of the pagination loop: rows are appended
and the loop continues with the token read from the response. -/
theorem get_pages_loop_step (today : String) (fetch : String → HttpOutcome)
    (n : Nat) (tok : String) (acc : List String) (page : Response)
    (l : List String)
    (hf : fetch tok = .status 200 page)
    (he : get_videos today (page.items.getD []) = .ok l) :
    get_pages_loop today fetch (n + 1) (some tok) acc =
      get_pages_loop today fetch n
        (page.nextPageToken.map (fun t => "pageToken=" ++ t ++ "&")) (acc ++ l) := by
  simp [get_pages_loop, hf, api_request, he]

/-- An exhausted token ends the loop with the accumulator. -/
theorem get_pages_loop_none (today : String) (fetch : String → HttpOutcome)
    (n : Nat) (acc : List String) :
    get_pages_loop today fetch n none acc = .ok acc := by
  cases n <;> rfl

/-- When every category's pagination returns no rows, the per-category
loop records no writes. -/
theorem get_data_cats_ok_nil (today : String)
    (fetchAll : String → Option String → String → HttpOutcome)
    (fuel : Nat) (c : String) :
    ∀ cats : List (String × String),
      (∀ p ∈ cats, get_pages today (fetchAll c (some p.1)) fuel = .ok []) →
      get_data_cats today fetchAll fuel c cats = .ok []
  | [], _ => rfl
  | (cid, cname) :: rest, h => by
    simp only [get_data_cats]
    rw [h (cid, cname) (by simp)]
    rw [get_data_cats_ok_nil today fetchAll fuel c rest
      (fun p hp => h p (by simp [hp]))]
    rfl

/-! ## Claim theorems -/

/-- C1 (counterexample): an item whose `statistics` is present is not
guaranteed a row — with `id` absent, `video['id']` raises and extraction
produces an error instead of a row, so a condition other than a missing
statistics sub-structure does prevent a row from being produced. -/
theorem extractor_row_counterexample :
    (({ statistics := some {} } : Item).statistics).isSome = true ∧
    get_videos "2020-01-01" [{ statistics := some {} }] = .error () :=
  ⟨rfl, rfl⟩

/-- C1 (amended): the Record Extractor skips exactly the items lacking a
statistics sub-structure; an item with statistics and with both `id` and
`snippet` yields exactly one row of the header's 17 fields; an item with
statistics but without `id` or without `snippet` makes extraction raise
(crashing the run) instead of producing or skipping a row. -/
theorem extractor_row_policy (today : String) (v : Item) :
    (v.statistics = none → extract_fields today v = .ok none) ∧
    (∀ st vid sn, v.statistics = some st → v.id = some vid →
      v.snippet = some sn →
      ∃ fields, extract_fields today v = .ok (some fields) ∧
        fields.length = HEADER.length) ∧
    (∀ st, v.statistics = some st → (v.id = none ∨ v.snippet = none) →
      extract_fields today v = .error ()) := by
  obtain ⟨i, s, cd, stx⟩ := v
  refine ⟨?_, ?_, ?_⟩
  · intro h; simp only at h; subst h; rfl
  · intro st vid sn hst hid hsn
    simp only at hst hid hsn
    subst hst hid hsn
    obtain ⟨vc, lc, dc, cc⟩ := st
    cases lc <;> cases cc <;> exact ⟨_, rfl, rfl⟩
  · intro st hst hor
    simp only at hst
    subst hst
    rcases hor with h | h <;> simp only at h <;> subst h
    · rfl
    · cases i <;> rfl

/-- C1 (witness): the three branches of the policy at concrete items. -/
theorem extractor_row_policy_witness :
    (extract_fields "2020-01-01" ({} : Item) = .ok none) ∧
    (∃ fields, extract_fields "2020-01-01" itemW = .ok (some fields) ∧
      fields.length = HEADER.length) ∧
    (extract_fields "2020-01-01" ({ statistics := some {} } : Item) = .error ()) :=
  ⟨(extractor_row_policy "2020-01-01" {}).1 rfl,
   (extractor_row_policy "2020-01-01" itemW).2.1 {} "v1" {} rfl rfl rfl,
   (extractor_row_policy "2020-01-01" { statistics := some {} }).2.2 {} rfl
     (Or.inl rfl)⟩

/-- C2: a simulated 3-page token sequence `T1 → T2 → none` makes
`get_pages` return the concatenation, in page order, of the rows
extracted from the three pages, terminating at the tokenless page. -/
theorem pagination_three_pages (today : String) (fetch : String → HttpOutcome)
    (r1 r2 r3 : Response) (t1 t2 : String) (l1 l2 l3 : List String)
    (fuel : Nat)
    (h1 : fetch "&" = .status 200 r1) (hn1 : r1.nextPageToken = some t1)
    (h2 : fetch ("pageToken=" ++ t1 ++ "&") = .status 200 r2)
    (hn2 : r2.nextPageToken = some t2)
    (h3 : fetch ("pageToken=" ++ t2 ++ "&") = .status 200 r3)
    (hn3 : r3.nextPageToken = none)
    (e1 : get_videos today (r1.items.getD []) = .ok l1)
    (e2 : get_videos today (r2.items.getD []) = .ok l2)
    (e3 : get_videos today (r3.items.getD []) = .ok l3)
    (hfuel : 3 ≤ fuel) :
    get_pages today fetch fuel = .ok (l1 ++ l2 ++ l3) := by
  obtain ⟨k, rfl⟩ : ∃ k, fuel = (k + 2) + 1 := ⟨fuel - 3, by omega⟩
  show get_pages_loop today fetch ((k + 2) + 1) (some "&") [] = _
  rw [get_pages_loop_step today fetch (k + 2) "&" [] r1 l1 h1 e1, hn1]
  show get_pages_loop today fetch ((k + 1) + 1) (some _) _ = _
  rw [get_pages_loop_step today fetch (k + 1) _ _ r2 l2 h2 e2, hn2]
  show get_pages_loop today fetch (k + 1) (some _) _ = _
  rw [get_pages_loop_step today fetch k _ _ r3 l3 h3 e3, hn3]
  show get_pages_loop today fetch k none _ = _
  rw [get_pages_loop_none]
  simp

/-- C2 (witness): the concrete simulated API `fetchW` with pages
`pg1, pg2, pg3` yields the rows of the three pages in order. -/
theorem pagination_three_pages_witness :
    get_pages "2020-01-01" fetchW 3 = .ok ([] ++ [rowW] ++ []) :=
  pagination_three_pages "2020-01-01" fetchW pg1 pg2 pg3 "T1" "T2"
    [] [rowW] [] 3 rfl rfl rfl rfl rfl rfl rfl rfl rfl (by omega)

/-- C3: in every emitted row, the ratings_disabled field (position 14)
is the sanitized `True` iff the statistics lack `likeCount`, and in that
case the likes (position 9) and dislikes (position 10) fields are the
sanitized `0`, whatever the rest of the item holds. -/
theorem row_ratings_disabled (today : String) (v : Item) (st : Statistics)
    (vid : String) (sn : Snippet)
    (hst : v.statistics = some st) (hid : v.id = some vid)
    (hsn : v.snippet = some sn) :
    ∃ fields, extract_fields today v = .ok (some fields) ∧
      (fields.getD 14 "" = prepare_feature (.b true) ↔ st.likeCount = none) ∧
      (st.likeCount = none →
        fields.getD 9 "" = prepare_feature (.i 0) ∧
        fields.getD 10 "" = prepare_feature (.i 0)) := by
  obtain ⟨i, s, cd, stx⟩ := v
  simp only at hst hid hsn
  subst hst hid hsn
  obtain ⟨vc, lc, dc, cc⟩ := st
  cases lc with
  | none =>
    cases cc <;> refine ⟨_, rfl, ?_, fun _ => ⟨?_, ?_⟩⟩ <;>
      simp [List.getD]
  | some lcv =>
    cases cc <;> refine ⟨_, rfl, ?_, fun h => absurd h (by simp)⟩ <;>
    · simp only [List.getD]
      simp [prepare_feature, Value.toStr]
      intro h
      exact absurd (congrArg String.data h) (by decide)

/-- C3 (witness): the statistics of `itemW` lack `likeCount`, so its row
reports ratings disabled with zero likes and dislikes. -/
theorem row_ratings_disabled_witness :
    ∃ fields, extract_fields "2020-01-01" itemW = .ok (some fields) ∧
      (fields.getD 14 "" = prepare_feature (.b true) ↔
        ({} : Statistics).likeCount = none) ∧
      (({} : Statistics).likeCount = none →
        fields.getD 9 "" = prepare_feature (.i 0) ∧
        fields.getD 10 "" = prepare_feature (.i 0)) :=
  row_ratings_disabled "2020-01-01" itemW {} "v1" {} rfl rfl rfl

/-- C4: in every emitted row, the comments_disabled field (position 13)
is the sanitized `True` iff the statistics lack `commentCount`, and in
that case the comment_count field (position 11) is the sanitized `0`. -/
theorem row_comments_disabled (today : String) (v : Item) (st : Statistics)
    (vid : String) (sn : Snippet)
    (hst : v.statistics = some st) (hid : v.id = some vid)
    (hsn : v.snippet = some sn) :
    ∃ fields, extract_fields today v = .ok (some fields) ∧
      (fields.getD 13 "" = prepare_feature (.b true) ↔ st.commentCount = none) ∧
      (st.commentCount = none →
        fields.getD 11 "" = prepare_feature (.i 0)) := by
  obtain ⟨i, s, cd, stx⟩ := v
  simp only at hst hid hsn
  subst hst hid hsn
  obtain ⟨vc, lc, dc, cc⟩ := st
  cases cc with
  | none =>
    cases lc <;> refine ⟨_, rfl, ?_, fun _ => ?_⟩ <;> simp [List.getD]
  | some ccv =>
    cases lc <;> refine ⟨_, rfl, ?_, fun h => absurd h (by simp)⟩ <;>
    · simp only [List.getD]
      simp [prepare_feature, Value.toStr]
      intro h
      exact absurd (congrArg String.data h) (by decide)

/-- C4 (witness): the statistics of `itemW` lack `commentCount`, so its
row reports comments disabled with a zero comment count. -/
theorem row_comments_disabled_witness :
    ∃ fields, extract_fields "2020-01-01" itemW = .ok (some fields) ∧
      (fields.getD 13 "" = prepare_feature (.b true) ↔
        ({} : Statistics).commentCount = none) ∧
      (({} : Statistics).commentCount = none →
        fields.getD 11 "" = prepare_feature (.i 0)) :=
  row_comments_disabled "2020-01-01" itemW {} "v1" {} rfl rfl rfl

/-- C5: the tags field of every emitted row (position 7) equals the
sanitized sentinel `"[none]"` when the item's tag list is empty, and the
sanitized `"a|b"` when the tag list is `["a", "b"]` — the row assembly's
second sanitization collapses by idempotence. -/
theorem row_tags_field (today : String) (v : Item) (st : Statistics)
    (vid : String) (sn : Snippet)
    (hst : v.statistics = some st) (hid : v.id = some vid)
    (hsn : v.snippet = some sn) :
    ∃ fields, extract_fields today v = .ok (some fields) ∧
      (sn.tags.getD [] = [] →
        fields.getD 7 "" = prepare_feature (.s "[none]")) ∧
      (sn.tags = some ["a", "b"] →
        fields.getD 7 "" = prepare_feature (.s "a|b")) := by
  obtain ⟨i, s, cd, stx⟩ := v
  simp only at hst hid hsn
  subst hst hid hsn
  obtain ⟨vc, lc, dc, cc⟩ := st
  cases lc <;> cases cc <;>
    refine ⟨_, rfl, fun h => ?_, fun h => ?_⟩ <;>
    · simp only [List.getD]
      simp
      rw [h]
      exact prepare_prepare _

/-- C5 (witness): the two tag shapes at concrete items. -/
theorem row_tags_field_witness :
    (∃ fields, extract_fields "2020-01-01" itemW = .ok (some fields) ∧
      ((({} : Snippet).tags.getD []) = [] →
        fields.getD 7 "" = prepare_feature (.s "[none]")) ∧
      (({} : Snippet).tags = some ["a", "b"] →
        fields.getD 7 "" = prepare_feature (.s "a|b"))) ∧
    (∃ fields,
      extract_fields "2020-01-01"
        { id := some "v2", snippet := some { tags := some ["a", "b"] },
          statistics := some {} } = .ok (some fields) ∧
      ((({ tags := some ["a", "b"] } : Snippet).tags.getD []) = [] →
        fields.getD 7 "" = prepare_feature (.s "[none]")) ∧
      (({ tags := some ["a", "b"] } : Snippet).tags = some ["a", "b"] →
        fields.getD 7 "" = prepare_feature (.s "a|b"))) :=
  ⟨row_tags_field "2020-01-01" itemW {} "v1" {} rfl rfl rfl,
   row_tags_field "2020-01-01" _ {} "v2" { tags := some ["a", "b"] }
     rfl rfl rfl⟩

/-- C6 (counterexample): the sanitizer's output does contain double-quote
characters — the wrapping pair it itself adds — so "contains no
double-quote character" cannot hold together with "begins and ends with a
double quote": at input `"x"` the output starts with `'"'` and therefore
contains it. -/
theorem sanitize_counterexample :
    '"' ∈ (prepare_feature (Value.s "x")).data ∧
    (prepare_feature (Value.s "x")).data.head? = some '"' := by
  decide

/-- C6 (amended): for every scalar value the sanitizer succeeds and its
output is a double quote, then text free of newlines and double quotes,
then a closing double quote. -/
theorem sanitize_shape (v : Value) :
    ∃ m : List Char, (prepare_feature v).data = '"' :: m ++ ['"'] ∧
      ∀ c ∈ m, c ≠ '\n' ∧ c ≠ '"' :=
  ⟨cleanList v.toStr.data, prepare_feature_data v,
   fun _ hc => cleanList_clean hc⟩

/-- C7 (counterexample): an HTTP 429 does terminate the process, but via
a bare `sys.exit()`, which exits with status 0 — not a non-zero status. -/
theorem rate_limit_exit_counterexample :
    api_request (.status 429 {}) = .exit 0 ∧
    ¬ ∃ c, c ≠ 0 ∧ api_request (.status 429 {}) = .exit c := by
  refine ⟨rfl, ?_⟩
  rintro ⟨c, hc, h⟩
  simp [api_request] at h
  exact hc h.symm

/-- C7 (amended): HTTP 429 and HTTP 403 each cause immediate
whole-process termination (propagated unchanged through the pagination
loop, never treated as a fetch-local failure), 403 with the non-zero
status 1 but 429 with status 0. -/
theorem fatal_status_exit (r : Response) (today : String)
    (fetch : String → HttpOutcome) (fuel : Nat) (hfuel : 1 ≤ fuel) :
    api_request (.status 429 r) = .exit 0 ∧
    api_request (.status 403 r) = .exit 1 ∧
    (fetch "&" = .status 429 r →
      get_pages today fetch fuel = .error (.exit 0)) ∧
    (fetch "&" = .status 403 r →
      get_pages today fetch fuel = .error (.exit 1)) := by
  obtain ⟨k, rfl⟩ : ∃ k, fuel = k + 1 := ⟨fuel - 1, by omega⟩
  refine ⟨rfl, rfl, fun h => ?_, fun h => ?_⟩ <;>
    simp [get_pages, get_pages_loop, h, api_request]

/-- C7 (witness): concrete 429 and 403 first pages. -/
theorem fatal_status_exit_witness :
    get_pages "d" (fun _ => .status 429 ({} : Response)) 1 = .error (.exit 0) ∧
    get_pages "d" (fun _ => .status 403 ({} : Response)) 1 = .error (.exit 1) :=
  ⟨(fatal_status_exit {} "d" (fun _ => .status 429 {}) 1 (by omega)).2.2.1 rfl,
   (fatal_status_exit {} "d" (fun _ => .status 403 {}) 1 (by omega)).2.2.2 rfl⟩

/-- C8: a fetch-local failure (timeout, transport error, or a non-200
status other than 429/403) at any page of the pagination loop makes it
stop at once, returning exactly the rows accumulated from the pages
fetched before the failure — whatever the current token and accumulator
are — and the orchestrator goes on to the remaining countries. -/
theorem fetch_local_partial (today : String)
    (fetchAll : String → Option String → String → HttpOutcome)
    (c1 : String) (rest : List String) (cat : Option String)
    (tok : String) (acc l1 : List String) (fuel : Nat)
    (hf : fetchLocalFailure (fetchAll c1 cat tok))
    (hfuel : 1 ≤ fuel)
    (hp : get_pages today (fetchAll c1 none) fuel = .ok l1) :
    get_pages_loop today (fetchAll c1 cat) fuel (some tok) acc = .ok acc ∧
    get_data today fetchAll fuel (c1 :: rest) false =
      (get_data today fetchAll fuel rest false).map
        (fun ws => ⟨c1, none, headerRow :: l1⟩ :: ws) := by
  obtain ⟨k, rfl⟩ : ∃ k, fuel = k + 1 := ⟨fuel - 1, by omega⟩
  constructor
  · simp [get_pages_loop, api_request_fetchLocal hf]
  · simp only [get_data, Bool.false_eq_true, if_false, hp]
    cases hres : get_data today fetchAll (k + 1) rest false <;>
      simp [Except.map, hres]

/-- C8 (witness): country `AA` loses page 2 to a 500 — at that point the
loop holds the page-1 row as its accumulator and returns exactly it —
and country `BB` is still processed afterwards. -/
theorem fetch_local_partial_witness :
    get_pages_loop "2020-01-01" (fetchAllW "AA" none) 2
      (some "pageToken=T1&") [rowW] = .ok [rowW] ∧
    get_data "2020-01-01" fetchAllW 2 ("AA" :: ["BB"]) false =
      (get_data "2020-01-01" fetchAllW 2 ["BB"] false).map
        (fun ws => ⟨"AA", none, headerRow :: [rowW]⟩ :: ws) :=
  fetch_local_partial "2020-01-01" fetchAllW "AA" ["BB"] none
    "pageToken=T1&" [rowW] [rowW] 2
    (Or.inr (Or.inr ⟨500, {}, rfl, by omega, by omega, by omega⟩))
    (by omega) rfl

/-- C9: a country whose pagination yields zero rows produces no file at
all under category-splitting, but an unconditional header-only file
without it. -/
theorem empty_country_writes (today : String)
    (fetchAll : String → Option String → String → HttpOutcome)
    (fuel : Nat) (c : String)
    (hcats : ∀ p ∈ CATEGORIES,
      get_pages today (fetchAll c (some p.1)) fuel = .ok [])
    (hall : get_pages today (fetchAll c none) fuel = .ok []) :
    get_data today fetchAll fuel [c] true = .ok [] ∧
    get_data today fetchAll fuel [c] false = .ok [⟨c, none, [headerRow]⟩] := by
  constructor
  · simp only [get_data, if_true]
    rw [get_data_cats_ok_nil today fetchAll fuel c CATEGORIES hcats]
    rfl
  · simp only [get_data, Bool.false_eq_true, if_false, hall]
    rfl

/-- C9 (witness): a country whose every fetch fails locally collects
zero rows; with splitting no file is recorded, without it one
header-only file is. -/
theorem empty_country_writes_witness :
    get_data "d" fetchFail 1 ["AA"] true = .ok [] ∧
    get_data "d" fetchFail 1 ["AA"] false = .ok [⟨"AA", none, [headerRow]⟩] :=
  empty_country_writes "d" fetchFail 1 "AA" (fun _ _ => rfl) rfl

/-- C10: the sanitizer is idempotent — sanitizing its own output changes
nothing — and in particular the row assembly's second sanitization of the
already-sanitized tags field leaves it unchanged. -/
theorem sanitize_idempotent :
    (∀ x : Value, prepare_feature (.s (prepare_feature x)) = prepare_feature x) ∧
    (∀ tl : List String, prepare_feature (.s (get_tags tl)) = get_tags tl) :=
  ⟨prepare_prepare,
   fun tl => prepare_prepare
     (.s (String.intercalate "|" (if tl.isEmpty then ["[none]"] else tl)))⟩

end Scraper
